import Mathlib

/-!
Shallow embedding of the `ssdb_manager` facade (file `ssdb_manager/ssdb_manager.py`).

Each public operation of the facade is modelled as a pure function that returns
the ordered list of observable effects it performs (the `Event` trace: opening
the pyodbc connection and the sqlalchemy engine, issuing SQL text, committing,
console output, the interactive prompt, closing handles) together with its
result.  Behaviour of the external collaborators (the remote database, the
pandas bulk writer, the console user) is passed in as explicit parameters:
`readRes`/`execRes` model the outcome of `pd.read_sql_query`/`cursor.execute`,
`userInput` models the text typed at the confirmation prompt, and an abstract
table (a list of rows) models the remote table that the delete/populate
statements act on.  Raised Python exceptions are modelled as `Except.error`
values carrying the message; the trace returned alongside an error is the list
of effects performed before the exception escaped.
-/

namespace SSDB

/-- A database row, modelled as an association list from column name to the
stringified cell value. -/
abbrev Row := List (String × String)

/-- Model of a pandas `DataFrame`: its ordered column labels and its rows of
cell strings. -/
structure DataFrame where
  columns : List String
  rows : List (List String)
  deriving Repr, DecidableEq

/-- The observable effects an operation of the facade can perform, in order. -/
inductive Event where
  | openConn (connStr : String)
  | openEngine (engineStr : String)
  | readSql (sql : String)
  | execute (sql : String)
  | commit
  | toSql (table_name : String) (schema : String) (if_exists : String)
      (index : Bool) (chunksize : Nat) (nvarcharCols : List String)
  | printMsg (msg : String)
  | printTable (rows : List Row)
  | promptInput (prompt : String)
  | closeConn
  | disposeEngine
  deriving Repr, DecidableEq

/-- The pyodbc connection string built by `make_connection`
(`conn_text` in the source). -/
def conn_text (server db : String) : String :=
  "Driver=\x7bSQL Server\x7d;Server=" ++ server ++
    ";Integrated Security=true Database=" ++ db ++ ";Trusted_Connection=yes;"

/-- The sqlalchemy engine string built by `make_connection`
(`engine_text` in the source). -/
def engine_text (server db driver : String) : String :=
  "mssql+pyodbc://" ++ server ++ "/" ++ db ++ "?driver=" ++ driver ++
    "?Trusted_Connection=yes"

/-- Message of the arity assertion in `make_connection`. -/
def assert_key_msg : String :=
  "The key argument must be in the form (server, database)"

/-- Model of `make_connection(key, custom_connection, driver)`: asserts that the key has
exactly two components, parses it into `(server, db)`, and when
`custom_connection` is false opens the pyodbc connection and the sqlalchemy
engine (the two `Event`s returned).  The key is modelled as a `List String` so
that the wrong-arity branch is representable. -/
def make_connection (key : List String) (custom_connection : Bool)
    (driver : String) : Except String (String × String × List Event) :=
  match key with
  | [server, db] =>
    if custom_connection then
      Except.ok (server, db, [])
    else
      Except.ok (server, db,
        [Event.openConn (conn_text server db),
         Event.openEngine (engine_text server db driver)])
  | _ => Except.error assert_key_msg

/-- Model of `close_connection()`: closes the connection, then disposes the engine. -/
def close_connection : List Event :=
  [Event.closeConn, Event.disposeEngine]

/-- Model of `import_table`: fetches a full table.  `readRes` is the outcome of the
`pd.read_sql_query` call. -/
def import_table (readRes : Except String DataFrame) (key : List String)
    (table_name : String) (schema : String) (custom_connection : Bool)
    (driver : String) (show_progress : Bool) :
    List Event × Except String DataFrame :=
  match make_connection key custom_connection driver with
  | Except.error e => ([], Except.error e)
  | Except.ok (_server, db, ev1) =>
    let ev2 := if show_progress then
        [Event.printMsg ("Importing table [" ++ table_name ++ "] from " ++ db ++ "...")]
      else []
    let sql := "SELECT * FROM [" ++ db ++ "].[" ++ schema ++ "].[" ++ table_name ++ "]"
    match readRes with
    | Except.error e => (ev1 ++ ev2 ++ [Event.readSql sql], Except.error e)
    | Except.ok data_table =>
      let ev3 := if show_progress then
          [Event.printMsg ("\tSuccessfully imported " ++ table_name ++ ": (" ++
            toString data_table.rows.length ++ ", " ++
            toString data_table.columns.length ++ ")")]
        else []
      let ev4 := if custom_connection then [] else close_connection
      (ev1 ++ ev2 ++ [Event.readSql sql] ++ ev3 ++ ev4, Except.ok data_table)

/-- The default column type used by `create_table` for columns with no
caller-supplied override. -/
def default_column_type : String := "[nvarchar] (255) Null"

/-- The type chosen for one column in `create_table`: the kwargs override when
the column is a key of the override mapping, the default otherwise. -/
def column_type_of (kwargs : List (String × String)) (col : String) : String :=
  match kwargs.lookup col with
  | some t => t
  | none => default_column_type

/-- The text `create_table` appends to the statement for one column. -/
def column_def (kwargs : List (String × String)) (col : String) : String :=
  "[" ++ col ++ "] " ++ column_type_of kwargs col ++ ","

/-- The `CREATE TABLE` statement built by `create_table`: the loop over
`df.columns` appending one `column_def` per column, closed with a parenthesis. -/
def create_sql (db schema table_name : String) (cols : List String)
    (kwargs : List (String × String)) : String :=
  (cols.foldl (fun acc col => acc ++ column_def kwargs col)
    ("CREATE TABLE [" ++ db ++ "].[" ++ schema ++ "].[" ++ table_name ++ "] (")) ++ ")"

/-- Model of the external pandas `DataFrame.to_sql` contract for its
`if_exists` modes, acting on the abstract remote table: `fail` raises when the
table exists, `replace` overwrites the rows, `append` adds the payload rows
after the existing ones. -/
def to_sql_model (tableExists : Bool) (existing : List (List String))
    (df : DataFrame) (if_exists : String) : Except String (List (List String)) :=
  if if_exists = "fail" ∧ tableExists then
    Except.error ("Table " ++ "already exists.")
  else if if_exists = "replace" then Except.ok df.rows
  else if tableExists then Except.ok (existing ++ df.rows)
  else Except.ok df.rows

/-- Model of `populate_table`: connects, bulk-writes `df` through `df.to_sql` with the
given `if_exists` mode, `index = False`, `chunksize = 1000` and every column of
`df` mapped to NVARCHAR in the `dtype` dict, then closes and optionally prints.
Returns the trace, the remote table rows after the call, and the outcome. -/
def populate_table (tableExists : Bool) (existing : List (List String))
    (key : List String) (table_name : String) (df : DataFrame)
    (if_exists : String) (schema : String) (custom_connection : Bool)
    (driver : String) (show_progress : Bool) :
    List Event × List (List String) × Except String Unit :=
  match make_connection key custom_connection driver with
  | Except.error e => ([], existing, Except.error e)
  | Except.ok (_server, db, ev1) =>
    let ev2 := [Event.toSql table_name schema if_exists false 1000 df.columns]
    match to_sql_model tableExists existing df if_exists with
    | Except.error e => (ev1 ++ ev2, existing, Except.error e)
    | Except.ok newRows =>
      let ev3 := if custom_connection then [] else close_connection
      let ev4 := if show_progress then
          [Event.printMsg (toString df.rows.length ++ " rows added to " ++
            table_name ++ " in " ++ db ++ ".")]
        else []
      (ev1 ++ ev2 ++ ev3 ++ ev4, newRows, Except.ok ())

/-- Model of `create_table`: connects, builds and executes the `CREATE TABLE` statement,
commits, optionally prints, closes, then immediately calls `populate_table` on
the same payload (with the default mode, `append`).  `execRes` is the outcome
of the `cursor.execute` call; `tableExistsAfter`/`existing` describe the remote
table state seen by the subsequent populate step. -/
def create_table (execRes : Except String Unit) (tableExistsAfter : Bool)
    (existing : List (List String)) (key : List String) (table_name : String)
    (df : DataFrame) (schema : String) (custom_connection : Bool)
    (driver : String) (show_progress : Bool) (kwargs : List (String × String)) :
    List Event × List (List String) × Except String Unit :=
  match make_connection key custom_connection driver with
  | Except.error e => ([], existing, Except.error e)
  | Except.ok (_server, db, ev1) =>
    let cre_sql := create_sql db schema table_name df.columns kwargs
    match execRes with
    | Except.error e => (ev1 ++ [Event.execute cre_sql], existing, Except.error e)
    | Except.ok _ =>
      let ev2 := [Event.execute cre_sql, Event.commit]
      let ev3 := if show_progress then
          [Event.printMsg (table_name ++ " has been created in " ++ db ++ ".")]
        else []
      let ev4 := if custom_connection then [] else close_connection
      let p := populate_table tableExistsAfter existing key table_name df
        "append" schema custom_connection driver show_progress
      (ev1 ++ ev2 ++ ev3 ++ ev4 ++ p.1, p.2.1, p.2.2)

/-- Model of `drop_table`: connects, executes `DROP TABLE`, commits, closes, optionally
prints.  `execRes` is the outcome of the `cursor.execute` call; when it raises,
the error propagates and neither commit nor close is reached. -/
def drop_table (execRes : Except String Unit) (key : List String)
    (table_name : String) (schema : String)
    (custom_connection : Bool) (driver : String) (show_progress : Bool) :
    List Event × Except String Unit :=
  match make_connection key custom_connection driver with
  | Except.error e => ([], Except.error e)
  | Except.ok (_server, db, ev1) =>
    let stmt := "DROP TABLE [" ++ db ++ "].[" ++ schema ++ "].[" ++
      table_name ++ "]"
    match execRes with
    | Except.error e => (ev1 ++ [Event.execute stmt], Except.error e)
    | Except.ok _ =>
      let ev2 := [Event.execute stmt, Event.commit]
      let ev3 := if custom_connection then [] else close_connection
      let ev4 := if show_progress then
          [Event.printMsg (table_name ++ " dropped from " ++ db ++ ".")]
        else []
      (ev1 ++ ev2 ++ ev3 ++ ev4, Except.ok ())

/-- Model of `trunc_table`: connects, executes `TRUNCATE TABLE`, commits, closes,
optionally prints.  `execRes` is the outcome of the `cursor.execute` call; when
it raises, the error propagates and neither commit nor close is reached. -/
def trunc_table (execRes : Except String Unit) (key : List String)
    (table_name : String) (schema : String)
    (custom_connection : Bool) (driver : String) (show_progress : Bool) :
    List Event × Except String Unit :=
  match make_connection key custom_connection driver with
  | Except.error e => ([], Except.error e)
  | Except.ok (_server, db, ev1) =>
    let stmt := "TRUNCATE TABLE [" ++ db ++ "].[" ++ schema ++ "].[" ++
      table_name ++ "]"
    match execRes with
    | Except.error e => (ev1 ++ [Event.execute stmt], Except.error e)
    | Except.ok _ =>
      let ev2 := [Event.execute stmt, Event.commit]
      let ev3 := if custom_connection then [] else close_connection
      let ev4 := if show_progress then
          [Event.printMsg (table_name ++ " truncated in " ++ db ++ ".")]
        else []
      (ev1 ++ ev2 ++ ev3 ++ ev4, Except.ok ())

/-- Message of the missing-filter exception in `delete_rows` (the two arguments
of the Python `raise`, joined). -/
def missing_filter_msg : String :=
  "At least 1 key word argument required to filter table. " ++
  "To delete all rows, use the trunc_table() function."

/-- One equality predicate of the `WHERE` clause built by `delete_rows`:
`[column] = \x27value\x27`. -/
def where_pred (column_name value : String) : String :=
  "[" ++ column_name ++ "] = \x27" ++ value ++ "\x27"

/-- The counter-driven loop of `delete_rows` that accumulates the `WHERE`
clause, appending ` AND ` after every predicate whose (1-based) counter is not
the filter count. -/
def where_clause_loop (filter_count : Nat) :
    Nat → List (String × String) → String → String
  | _, [], where_clause => where_clause
  | counter, f :: rest, where_clause =>
    let add := where_pred f.1 f.2
    let add2 := if counter ≠ filter_count then add ++ " AND " else add
    where_clause_loop filter_count (counter + 1) rest (where_clause ++ add2)

/-- The full `WHERE` clause built by `delete_rows` from the keyword filters
(an ordered list of column-value pairs, the values already stringified). -/
def build_where_clause (filters : List (String × String)) : String :=
  where_clause_loop filters.length 1 filters ""

/-- Whether a row satisfies every equality filter: the semantics the remote
database gives to the conjunctive `WHERE` clause. -/
def rowMatches (filters : List (String × String)) (row : Row) : Bool :=
  filters.all (fun f => row.lookup f.1 == some f.2)

/-- Model of the Python `str.upper()` applied to the console input. -/
def pyUpper (s : String) : String := String.mk (s.data.map Char.toUpper)

/-- The inputs `delete_rows` accepts as confirmation. -/
def yes_answers : List String := ["Y", "YE", "YES"]

/-- Model of `delete_rows`: raises when no keyword filter is given; otherwise connects,
builds the shared `WHERE` clause, previews the matching rows with a `SELECT`,
prints them and their count, prompts for confirmation, and only on a yes answer
executes the `DELETE` and commits; finally closes.  `readRes` is the outcome of
the `pd.read_sql_query` preview call and `execRes` that of the `cursor.execute`
of the `DELETE`; when one raises, the error propagates, the remote table is
unchanged (the failed statement was not committed) and close is never reached.
`table` is the abstract remote table, `userInput` the console answer.  Returns
the trace, the remote table after the call, and the outcome. -/
def delete_rows (readRes : Except String Unit) (execRes : Except String Unit)
    (table : List Row) (userInput : String) (key : List String)
    (table_name : String) (schema : String) (custom_connection : Bool)
    (driver : String) (filters : List (String × String)) :
    List Event × List Row × Except String Unit :=
  if filters.length = 0 then
    ([], table, Except.error missing_filter_msg)
  else
    match make_connection key custom_connection driver with
    | Except.error e => ([], table, Except.error e)
    | Except.ok (_server, db, ev1) =>
      let sel_sql := "SELECT * FROM [" ++ db ++ "].[" ++ schema ++ "].[" ++
        table_name ++ "] WHERE "
      let del_sql := "DELETE FROM [" ++ db ++ "].[" ++ schema ++ "].[" ++
        table_name ++ "] WHERE "
      let where_clause := build_where_clause filters
      match readRes with
      | Except.error e =>
        (ev1 ++ [Event.readSql (sel_sql ++ where_clause)], table,
          Except.error e)
      | Except.ok _ =>
        let to_be_dropped := table.filter (fun r => rowMatches filters r)
        let ev2 := [Event.readSql (sel_sql ++ where_clause),
          Event.printTable to_be_dropped,
          Event.printMsg ("The above " ++ toString to_be_dropped.length ++
            " row(s) will be dropped from " ++ table_name ++ "."),
          Event.promptInput "Do you want to proceed? (Y/N)"]
        let keep_going := pyUpper userInput
        let ev4 := if custom_connection then [] else close_connection
        if keep_going ∈ yes_answers then
          match execRes with
          | Except.error e =>
            (ev1 ++ ev2 ++ [Event.execute (del_sql ++ where_clause)], table,
              Except.error e)
          | Except.ok _ =>
            let ev3 := [Event.execute (del_sql ++ where_clause), Event.commit,
              Event.printMsg ("Deleted " ++ toString to_be_dropped.length ++
                " row(s).")]
            let newTable := table.filter (fun r => !(rowMatches filters r))
            (ev1 ++ ev2 ++ ev3 ++ ev4, newTable, Except.ok ())
        else
          (ev1 ++ ev2 ++ [Event.printMsg ("No rows deleted.")] ++ ev4, table,
            Except.ok ())

/-- Model of `custom_query`: connects, runs the caller-supplied SQL text through
`pd.read_sql_query`, closes, and returns the resulting table. -/
def custom_query (readRes : Except String DataFrame) (key : List String)
    (query : String) (custom_connection : Bool) (driver : String) :
    List Event × Except String DataFrame :=
  match make_connection key custom_connection driver with
  | Except.error e => ([], Except.error e)
  | Except.ok (_server, _db, ev1) =>
    match readRes with
    | Except.error e => (ev1 ++ [Event.readSql query], Except.error e)
    | Except.ok data_table =>
      let ev2 := if custom_connection then [] else close_connection
      (ev1 ++ [Event.readSql query] ++ ev2, Except.ok data_table)

end SSDB

namespace SSDB

/-- Concatenation of a list of strings, in order. -/
def strConcat : List String → String
  | [] => ""
  | s :: rest => s ++ strConcat rest

/-- Join of a list of predicates with the separator ` AND `, the form the spec
ascribes to the `WHERE` clause. -/
def andJoin : List String → String
  | [] => ""
  | [p] => p
  | p :: q :: rest => p ++ " AND " ++ andJoin (q :: rest)

/-- A key whose length is not 2 makes `make_connection` fail its assertion. -/
theorem make_connection_arity (key : List String) (cc : Bool) (driver : String)
    (h : key.length ≠ 2) :
    make_connection key cc driver = Except.error assert_key_msg := by
  match key, h with
  | [], _ => rfl
  | [a], _ => rfl
  | [a, b], h => exact absurd rfl h
  | a :: b :: c :: t, _ => rfl

/-- The counter-driven loop of `delete_rows` produces the ` AND `-join of the
per-filter predicates, prefixed by the accumulator. -/
theorem where_clause_loop_eq (N : Nat) (fs : List (String × String)) :
    ∀ (counter : Nat) (acc : String), counter + fs.length = N + 1 →
      where_clause_loop N counter fs acc =
        acc ++ andJoin (fs.map (fun f => where_pred f.1 f.2)) := by
  induction fs with
  | nil =>
    intro counter acc _
    simp [where_clause_loop, andJoin]
  | cons f rest ih =>
    intro counter acc h
    cases rest with
    | nil =>
      have hc : counter = N := by simpa using h
      simp [where_clause_loop, andJoin, hc]
    | cons g t =>
      have hc : counter ≠ N := by
        simp only [List.length_cons] at h
        omega
      have h2 : (counter + 1) + (g :: t).length = N + 1 := by
        simp only [List.length_cons] at h ⊢
        omega
      rw [where_clause_loop, if_pos hc, ih (counter + 1) _ h2]
      simp [andJoin, String.append_assoc]

/-- The `WHERE` clause of `delete_rows` is the ` AND `-join of the equality
predicates of the filters, in order. -/
theorem build_where_clause_eq (filters : List (String × String)) :
    build_where_clause filters =
      andJoin (filters.map (fun f => where_pred f.1 f.2)) := by
  have h := where_clause_loop_eq filters.length filters 1 "" (by omega)
  simpa [build_where_clause, String.empty_append] using h

/-- Folding string appends from an accumulator equals the accumulator followed
by the concatenation of the mapped pieces. -/
theorem foldl_append_eq (g : String → String) (cols : List String) :
    ∀ acc : String,
      cols.foldl (fun a c => a ++ g c) acc = acc ++ strConcat (cols.map g) := by
  induction cols with
  | nil => intro acc; simp [strConcat]
  | cons c rest ih =>
    intro acc
    simp only [List.foldl, List.map, strConcat]
    rw [ih]
    simp [String.append_assoc]

/-- Closed form of the `CREATE TABLE` statement built by `create_table`. -/
theorem create_sql_eq (db schema table_name : String) (cols : List String)
    (kwargs : List (String × String)) :
    create_sql db schema table_name cols kwargs =
      "CREATE TABLE [" ++ db ++ "].[" ++ schema ++ "].[" ++ table_name ++ "] (" ++
        strConcat (cols.map (column_def kwargs)) ++ ")" := by
  rw [create_sql, foldl_append_eq]

end SSDB

namespace SSDB

/-- State machine tracking the connection/engine pair along a trace.
`some 0`: nothing open; `some 1`: connection open; `some 2`: connection and
engine open; `some 3`: connection closed, engine not yet disposed; `none`:
the trace violated the single-pair discipline (a second handle opened while
one was live, or a close without a matching open). -/
def connStep : Option Nat → Event → Option Nat
  | some 0, Event.openConn _ => some 1
  | some 1, Event.openEngine _ => some 2
  | some 2, Event.closeConn => some 3
  | some 3, Event.disposeEngine => some 0
  | some _, Event.openConn _ => none
  | some _, Event.openEngine _ => none
  | some _, Event.closeConn => none
  | some _, Event.disposeEngine => none
  | s, _ => s

/-- A trace is pair-scoped when, starting from the all-closed state, it never
has more than one connection/engine pair live and ends with nothing open. -/
def pairScoped (t : List Event) : Bool :=
  t.foldl connStep (some 0) == some 0

/-- A trace whose first two events open the pyodbc connection and the
sqlalchemy engine built from the given server, database and driver, and which
respects the single-pair open/close discipline throughout. -/
def scopedOpen (server db driver : String) (t : List Event) : Prop :=
  pairScoped t = true ∧
  ∃ rest, t = Event.openConn (conn_text server db) ::
    Event.openEngine (engine_text server db driver) :: rest

/-- The concatenated column definitions of a non-empty column list end with a
comma. -/
theorem strConcat_column_def_ends_comma (kwargs : List (String × String)) :
    ∀ (cols : List String), cols ≠ [] →
      ∃ t, strConcat (cols.map (column_def kwargs)) = t ++ "," := by
  intro cols
  induction cols with
  | nil => intro h; exact absurd rfl h
  | cons c rest ih =>
    intro _
    cases rest with
    | nil =>
      refine ⟨"[" ++ c ++ "] " ++ column_type_of kwargs c, ?_⟩
      simp [strConcat, column_def, String.append_empty, String.append_assoc]
    | cons d t2 =>
      obtain ⟨t0, ht0⟩ := ih (by simp)
      refine ⟨column_def kwargs c ++ t0, ?_⟩
      simp only [List.map, strConcat] at ht0 ⊢
      rw [ht0, String.append_assoc]

end SSDB

namespace SSDB

/-- Claim C3: calling the delete-rows operation with zero keyword filters
raises the missing-filter error immediately, with an empty effect trace (so
before any connection attempt or network call), the error text directs the
caller to the truncate operation (it contains `trunc_table()`), and with at
least one filter that error is never raised. -/
theorem delete_missing_filter_guard :
    (∀ (rdR exR : Except String Unit) (table : List Row) (inp : String)
      (key : List String) (tn sch : String) (cc : Bool) (drv : String),
      delete_rows rdR exR table inp key tn sch cc drv [] =
        ([], table, Except.error missing_filter_msg)) ∧
    (∃ a b, missing_filter_msg = a ++ "trunc_table()" ++ b) ∧
    (∀ (table : List Row) (inp : String) (key : List String)
      (tn sch : String) (cc : Bool) (drv : String)
      (filters : List (String × String)), filters ≠ [] →
      (delete_rows (Except.ok ()) (Except.ok ()) table inp key tn sch cc drv
        filters).2.2 ≠ Except.error missing_filter_msg) := by
  refine ⟨?_, ?_, ?_⟩
  · intro rdR exR table inp key tn sch cc drv
    rfl
  · exact ⟨"At least 1 key word argument required to filter table. " ++
      "To delete all rows, use the ", " function.", by decide⟩
  · intro table inp key tn sch cc drv filters hf
    match filters, hf with
    | f :: fs, _ =>
      rcases key with _ | ⟨a, _ | ⟨b, _ | ⟨c, t⟩⟩⟩
      · simp [delete_rows, make_connection]
        decide
      · simp [delete_rows, make_connection]
        decide
      · cases cc <;>
          · simp only [delete_rows, make_connection, List.length_cons]
            split
            · omega
            · split
              · simp_all
              · split <;> simp
      · simp [delete_rows, make_connection]
        decide

/-- Witness for C3 at concrete inputs. -/
theorem delete_missing_filter_guard_witness :
    (delete_rows (Except.ok ()) (Except.ok ()) [] "Y" ["s", "d"] "T" "dbo"
      false "drv" [] = ([], [], Except.error missing_filter_msg)) ∧
    (("A", "1") :: [] ≠ ([] : List (String × String)) ∧
      (delete_rows (Except.ok ()) (Except.ok ()) [] "Y" ["s", "d"] "T" "dbo"
        false "drv" [("A", "1")]).2.2 ≠ Except.error missing_filter_msg) :=
  ⟨delete_missing_filter_guard.1 (Except.ok ()) (Except.ok ()) [] "Y"
     ["s", "d"] "T" "dbo" false "drv",
   by decide,
   delete_missing_filter_guard.2.2 [] "Y" ["s", "d"] "T" "dbo" false "drv"
     [("A", "1")] (by decide)⟩

end SSDB

namespace SSDB

/-- Claim C8: for every operation, a key whose length is not exactly 2 makes
the call raise the arity precondition failure with an empty effect trace, so
before any connection or engine handle is opened.  (For the delete-rows
operation a zero-filter call raises its own precondition error first; either
way an error is raised and the trace is empty.) -/
theorem arity_check_before_connection (key : List String) (hk : key.length ≠ 2)
    (readRes : Except String DataFrame) (tn sch drv query : String)
    (cc sp te : Bool) (existing : List (List String)) (df : DataFrame)
    (ie : String) (execRes : Except String Unit) (teA : Bool)
    (kwargs : List (String × String)) (table : List Row) (inp : String)
    (filters : List (String × String)) (rdRes : Except String Unit) :
    import_table readRes key tn sch cc drv sp =
      ([], Except.error assert_key_msg) ∧
    create_table execRes teA existing key tn df sch cc drv sp kwargs =
      ([], existing, Except.error assert_key_msg) ∧
    populate_table te existing key tn df ie sch cc drv sp =
      ([], existing, Except.error assert_key_msg) ∧
    drop_table execRes key tn sch cc drv sp =
      ([], Except.error assert_key_msg) ∧
    trunc_table execRes key tn sch cc drv sp =
      ([], Except.error assert_key_msg) ∧
    ((delete_rows rdRes execRes table inp key tn sch cc drv filters).1 = [] ∧
      ∃ e, (delete_rows rdRes execRes table inp key tn sch cc drv
        filters).2.2 = Except.error e) ∧
    custom_query readRes key query cc drv =
      ([], Except.error assert_key_msg) := by
  have hmc : make_connection key cc drv = Except.error assert_key_msg :=
    make_connection_arity key cc drv hk
  refine ⟨?_, ?_, ?_, ?_, ?_, ?_, ?_⟩
  · simp [import_table, hmc]
  · simp [create_table, hmc]
  · simp [populate_table, hmc]
  · simp [drop_table, hmc]
  · simp [trunc_table, hmc]
  · cases filters with
    | nil => exact ⟨rfl, missing_filter_msg, rfl⟩
    | cons f fs =>
      constructor
      · simp [delete_rows, hmc]
      · exact ⟨assert_key_msg, by simp [delete_rows, hmc]⟩
  · simp [custom_query, hmc]

/-- Witness for C8 at a concrete one-element key. -/
theorem arity_check_before_connection_witness :
    (["only"] : List String).length ≠ 2 ∧
    import_table (Except.ok ⟨[], []⟩) ["only"] "T" "dbo" false "drv" false =
      ([], Except.error assert_key_msg) ∧
    trunc_table (Except.ok ()) ["only"] "T" "dbo" false "drv" false =
      ([], Except.error assert_key_msg) :=
  ⟨by decide,
   (arity_check_before_connection ["only"] (by decide) (Except.ok ⟨[], []⟩)
      "T" "dbo" "drv" "Q" false false false [] ⟨[], []⟩ "append"
      (Except.ok ()) false [] [] "Y" [] (Except.ok ())).1,
   (arity_check_before_connection ["only"] (by decide) (Except.ok ⟨[], []⟩)
      "T" "dbo" "drv" "Q" false false false [] ⟨[], []⟩ "append"
      (Except.ok ()) false [] [] "Y" [] (Except.ok ())).2.2.2.2.1⟩

/-- Claim C9: for a payload with at least one column the `CREATE TABLE`
statement ends its column list with a dangling comma (the statement ends in
`,)`), and a zero-column payload yields an empty parenthesized list (the
statement ends in `()`). -/
theorem create_sql_dangling_comma :
    (∀ (db sch tn : String) (kwargs : List (String × String))
      (cols : List String), cols ≠ [] →
      ∃ t, create_sql db sch tn cols kwargs = t ++ ",)") ∧
    (∀ (db sch tn : String) (kwargs : List (String × String)),
      ∃ t, create_sql db sch tn [] kwargs = t ++ "()") := by
  constructor
  · intro db sch tn kwargs cols hc
    obtain ⟨t0, ht0⟩ := strConcat_column_def_ends_comma kwargs cols hc
    refine ⟨"CREATE TABLE [" ++ db ++ "].[" ++ sch ++ "].[" ++ tn ++ "] (" ++ t0, ?_⟩
    rw [create_sql_eq, ht0]
    rw [show (",)" : String) = "," ++ ")" from by decide]
    simp [String.append_assoc]
  · intro db sch tn kwargs
    refine ⟨"CREATE TABLE [" ++ db ++ "].[" ++ sch ++ "].[" ++ tn ++ "] ", ?_⟩
    rw [create_sql_eq]
    simp only [List.map_nil, strConcat, String.append_empty, String.append_assoc]
    rw [show ("] (" : String) ++ ")" = "] " ++ "()" from by decide]

/-- Witness for C9 at concrete inputs. -/
theorem create_sql_dangling_comma_witness :
    (["A"] : List String) ≠ [] ∧
    (∃ t, create_sql "d" "dbo" "T" ["A"] [] = t ++ ",)") ∧
    (∃ t, create_sql "d" "dbo" "T" [] [] = t ++ "()") :=
  ⟨by decide,
   create_sql_dangling_comma.1 "d" "dbo" "T" [] ["A"] (by decide),
   create_sql_dangling_comma.2 "d" "dbo" "T" []⟩

end SSDB

namespace SSDB

/-- Claim C4: `create_table` builds a `CREATE TABLE` statement enumerating the
payload columns in order, each with its caller-supplied type when the column is
in the override set and the default nullable text type otherwise; it executes
the statement, commits, and its trace then continues with exactly the trace of
a `populate_table` call on the same payload and table name (the immediate bulk
populate), whose resulting remote state and outcome it returns. -/
theorem create_table_builds_and_populates (server db tn sch drv : String)
    (sp cc : Bool) (df : DataFrame) (kwargs : List (String × String))
    (teA : Bool) (existing : List (List String)) :
    create_sql db sch tn df.columns kwargs =
      "CREATE TABLE [" ++ db ++ "].[" ++ sch ++ "].[" ++ tn ++ "] (" ++
        strConcat (df.columns.map (fun col =>
          "[" ++ col ++ "] " ++
            (match kwargs.lookup col with
             | some t => t
             | none => "[nvarchar] (255) Null") ++ ",")) ++ ")" ∧
    (∃ ev1 ev3 ev4,
      (create_table (Except.ok ()) teA existing [server, db] tn df sch cc drv
          sp kwargs).1 =
        ev1 ++ [Event.execute (create_sql db sch tn df.columns kwargs),
          Event.commit] ++ ev3 ++ ev4 ++
        (populate_table teA existing [server, db] tn df "append" sch cc drv
          sp).1 ∧
      (create_table (Except.ok ()) teA existing [server, db] tn df sch cc drv
          sp kwargs).2.1 =
        (populate_table teA existing [server, db] tn df "append" sch cc drv
          sp).2.1 ∧
      (create_table (Except.ok ()) teA existing [server, db] tn df sch cc drv
          sp kwargs).2.2 =
        (populate_table teA existing [server, db] tn df "append" sch cc drv
          sp).2.2) := by
  constructor
  · rw [create_sql_eq]
    rfl
  · cases cc <;> cases sp <;> exact ⟨_, _, _, rfl, rfl, rfl⟩

/-- Claim C6: `populate_table` issues the bulk write with the given mode flag,
batched in chunks of 1000 rows, with `index = False` and every payload column
mapped to NVARCHAR; `append` adds the payload rows after the existing ones,
`replace` replaces them, and `fail` against an existing table raises and
leaves the existing rows unchanged. -/
theorem populate_table_modes (server db tn sch drv : String) (sp cc te : Bool)
    (existing : List (List String)) (df : DataFrame) (ie : String) :
    (Event.toSql tn sch ie false 1000 df.columns ∈
      (populate_table te existing [server, db] tn df ie sch cc drv sp).1) ∧
    (ie = "fail" → te = true →
      (populate_table te existing [server, db] tn df ie sch cc drv sp).2.1 =
        existing ∧
      ∃ e, (populate_table te existing [server, db] tn df ie sch cc drv
        sp).2.2 = Except.error e) ∧
    (ie = "replace" →
      (populate_table te existing [server, db] tn df ie sch cc drv sp).2 =
        (df.rows, Except.ok ())) ∧
    (ie = "append" →
      (populate_table te existing [server, db] tn df ie sch cc drv sp).2 =
        ((if te then existing ++ df.rows else df.rows), Except.ok ())) := by
  refine ⟨?_, ?_, ?_, ?_⟩
  · cases cc <;> cases sp <;>
      rcases h : to_sql_model te existing df ie with e | r <;>
      simp [populate_table, make_connection, h, close_connection]
  · intro h1 h2
    subst h1; subst h2
    cases cc <;> cases sp <;>
      simp [populate_table, make_connection, to_sql_model]
  · intro h1
    subst h1
    cases cc <;> cases sp <;> cases te <;>
      simp [populate_table, make_connection, to_sql_model]
  · intro h1
    subst h1
    cases cc <;> cases sp <;> cases te <;>
      simp [populate_table, make_connection, to_sql_model]

/-- Witness for C6 with mode `fail` against an existing table and with mode
`append`. -/
theorem populate_table_modes_witness :
    (Event.toSql "T" "dbo" "fail" false 1000 ["A"] ∈
      (populate_table true [["x"]] ["s", "d"] "T" ⟨["A"], [["1"]]⟩ "fail"
        "dbo" false "drv" false).1) ∧
    ((populate_table true [["x"]] ["s", "d"] "T" ⟨["A"], [["1"]]⟩ "fail"
        "dbo" false "drv" false).2.1 = [["x"]] ∧
      ∃ e, (populate_table true [["x"]] ["s", "d"] "T" ⟨["A"], [["1"]]⟩ "fail"
        "dbo" false "drv" false).2.2 = Except.error e) ∧
    ((populate_table true [["x"]] ["s", "d"] "T" ⟨["A"], [["1"]]⟩ "append"
        "dbo" false "drv" false).2 =
      ([["x"], ["1"]], Except.ok ())) :=
  ⟨(populate_table_modes "s" "d" "T" "dbo" "drv" false false true [["x"]]
      ⟨["A"], [["1"]]⟩ "fail").1,
   (populate_table_modes "s" "d" "T" "dbo" "drv" false false true [["x"]]
      ⟨["A"], [["1"]]⟩ "fail").2.1 rfl rfl,
   by
    have h := (populate_table_modes "s" "d" "T" "dbo" "drv" false false true
      [["x"]] ⟨["A"], [["1"]]⟩ "append").2.2.2 rfl
    exact h⟩

/-- The session state a failed call leaves behind when not in custom-connection
mode: the connection built from the pair was opened, and neither the close nor
the dispose step of `close_connection` appears in the trace. -/
def sessionLeftOpen (server db : String) (t : List Event) : Prop :=
  Event.openConn (conn_text server db) ∈ t ∧
  Event.closeConn ∉ t ∧
  Event.disposeEngine ∉ t

/-- Claim C7: for every operation with `custom_connection = False`, when the
underlying library call raises after the handles were opened (the
`pd.read_sql_query` call in `import_table`, `custom_query` and the preview of
`delete_rows`, the `cursor.execute` call in `create_table`, `drop_table`,
`trunc_table` and the `DELETE` of `delete_rows`, the `df.to_sql` call in
`populate_table`), the error propagates to the caller unchanged, any remote
state is unchanged, and the close/dispose step is never reached: the trace
contains the open event and no close or dispose event. -/
theorem exception_leaves_session_open (server db tn sch drv query : String)
    (sp : Bool) (e : String) (df : DataFrame) (te teA : Bool)
    (existing : List (List String)) (kwargs : List (String × String))
    (ie : String) (table : List Row) (inp : String)
    (filters : List (String × String)) (exR : Except String Unit) :
    ((import_table (Except.error e) [server, db] tn sch false drv sp).2 =
        Except.error e ∧
      sessionLeftOpen server db
        (import_table (Except.error e) [server, db] tn sch false drv sp).1) ∧
    ((create_table (Except.error e) teA existing [server, db] tn df sch false
          drv sp kwargs).2.2 = Except.error e ∧
      (create_table (Except.error e) teA existing [server, db] tn df sch false
          drv sp kwargs).2.1 = existing ∧
      sessionLeftOpen server db
        (create_table (Except.error e) teA existing [server, db] tn df sch
          false drv sp kwargs).1) ∧
    (to_sql_model te existing df ie = Except.error e →
      (populate_table te existing [server, db] tn df ie sch false drv
          sp).2.2 = Except.error e ∧
      (populate_table te existing [server, db] tn df ie sch false drv
          sp).2.1 = existing ∧
      sessionLeftOpen server db
        (populate_table te existing [server, db] tn df ie sch false drv
          sp).1) ∧
    ((drop_table (Except.error e) [server, db] tn sch false drv sp).2 =
        Except.error e ∧
      sessionLeftOpen server db
        (drop_table (Except.error e) [server, db] tn sch false drv sp).1) ∧
    ((trunc_table (Except.error e) [server, db] tn sch false drv sp).2 =
        Except.error e ∧
      sessionLeftOpen server db
        (trunc_table (Except.error e) [server, db] tn sch false drv sp).1) ∧
    (filters ≠ [] →
      (delete_rows (Except.error e) exR table inp [server, db] tn sch false
          drv filters).2.2 = Except.error e ∧
      (delete_rows (Except.error e) exR table inp [server, db] tn sch false
          drv filters).2.1 = table ∧
      sessionLeftOpen server db
        (delete_rows (Except.error e) exR table inp [server, db] tn sch false
          drv filters).1) ∧
    (filters ≠ [] → pyUpper inp ∈ yes_answers →
      (delete_rows (Except.ok ()) (Except.error e) table inp [server, db] tn
          sch false drv filters).2.2 = Except.error e ∧
      (delete_rows (Except.ok ()) (Except.error e) table inp [server, db] tn
          sch false drv filters).2.1 = table ∧
      sessionLeftOpen server db
        (delete_rows (Except.ok ()) (Except.error e) table inp [server, db]
          tn sch false drv filters).1) ∧
    ((custom_query (Except.error e) [server, db] query false drv).2 =
        Except.error e ∧
      sessionLeftOpen server db
        (custom_query (Except.error e) [server, db] query false drv).1) := by
  refine ⟨?_, ?_, ?_, ?_, ?_, ?_, ?_, ?_⟩
  · cases sp <;> simp [import_table, make_connection, sessionLeftOpen]
  · cases sp <;> simp [create_table, make_connection, sessionLeftOpen]
  · intro hte
    cases sp <;> simp [populate_table, make_connection, hte, sessionLeftOpen]
  · cases sp <;> simp [drop_table, make_connection, sessionLeftOpen]
  · cases sp <;> simp [trunc_table, make_connection, sessionLeftOpen]
  · intro hf
    match filters, hf with
    | f :: fs, _ =>
      simp [delete_rows, make_connection, sessionLeftOpen]
  · intro hf hyes
    match filters, hf with
    | f :: fs, _ =>
      simp [delete_rows, make_connection, sessionLeftOpen, if_pos hyes]
  · simp [custom_query, make_connection, sessionLeftOpen]

/-- Witness for C7: the to_sql failure (mode `fail` against an existing
table) and the two delete failure points, at concrete inputs. -/
theorem exception_leaves_session_open_witness :
    (to_sql_model true [["x"]] ⟨["A"], [["1"]]⟩ "fail" =
      Except.error ("Table " ++ "already exists.")) ∧
    (("A", "1") :: [] ≠ ([] : List (String × String))) ∧
    (pyUpper "y" ∈ yes_answers) ∧
    ((populate_table true [["x"]] ["s", "d"] "T" ⟨["A"], [["1"]]⟩ "fail"
        "dbo" false "v" false).2.2 =
      Except.error ("Table " ++ "already exists.") ∧
      (populate_table true [["x"]] ["s", "d"] "T" ⟨["A"], [["1"]]⟩ "fail"
        "dbo" false "v" false).2.1 = [["x"]] ∧
      sessionLeftOpen "s" "d"
        (populate_table true [["x"]] ["s", "d"] "T" ⟨["A"], [["1"]]⟩ "fail"
          "dbo" false "v" false).1) ∧
    ((delete_rows (Except.error ("Table " ++ "already exists."))
        (Except.ok ()) [] "y" ["s", "d"] "T" "dbo" false "v"
        [("A", "1")]).2.2 = Except.error ("Table " ++ "already exists.") ∧
      (delete_rows (Except.error ("Table " ++ "already exists."))
        (Except.ok ()) [] "y" ["s", "d"] "T" "dbo" false "v"
        [("A", "1")]).2.1 = [] ∧
      sessionLeftOpen "s" "d"
        (delete_rows (Except.error ("Table " ++ "already exists."))
          (Except.ok ()) [] "y" ["s", "d"] "T" "dbo" false "v"
          [("A", "1")]).1) ∧
    ((delete_rows (Except.ok ())
        (Except.error ("Table " ++ "already exists.")) [] "y" ["s", "d"] "T"
        "dbo" false "v" [("A", "1")]).2.2 =
        Except.error ("Table " ++ "already exists.") ∧
      (delete_rows (Except.ok ())
        (Except.error ("Table " ++ "already exists.")) [] "y" ["s", "d"] "T"
        "dbo" false "v" [("A", "1")]).2.1 = [] ∧
      sessionLeftOpen "s" "d"
        (delete_rows (Except.ok ())
          (Except.error ("Table " ++ "already exists.")) [] "y" ["s", "d"]
          "T" "dbo" false "v" [("A", "1")]).1) :=
  ⟨rfl, by decide, by decide,
   (exception_leaves_session_open "s" "d" "T" "dbo" "v" "Q" false
      ("Table " ++ "already exists.") ⟨["A"], [["1"]]⟩ true false [["x"]] []
      "fail" [] "y" [("A", "1")] (Except.ok ())).2.2.1 rfl,
   (exception_leaves_session_open "s" "d" "T" "dbo" "v" "Q" false
      ("Table " ++ "already exists.") ⟨["A"], [["1"]]⟩ true false [["x"]] []
      "fail" [] "y" [("A", "1")] (Except.ok ())).2.2.2.2.2.1 (by decide),
   (exception_leaves_session_open "s" "d" "T" "dbo" "v" "Q" false
      ("Table " ++ "already exists.") ⟨["A"], [["1"]]⟩ true false [["x"]] []
      "fail" [] "y" [("A", "1")] (Except.ok ())).2.2.2.2.2.2.1 (by decide)
      (by decide)⟩

end SSDB

namespace SSDB

/-- Claim C10: in `delete_rows` the deletion proceeds (a `DELETE` is executed)
if and only if the console input, converted to upper case, is exactly one of
`Y`, `YE` or `YES`; every other input performs no deletion. -/
theorem delete_confirmation_exact_inputs (server db tn sch drv : String)
    (cc : Bool) (table : List Row) (inp : String)
    (filters : List (String × String)) (hf : filters ≠ []) :
    (∃ q, Event.execute q ∈
        (delete_rows (Except.ok ()) (Except.ok ()) table inp [server, db] tn sch cc drv filters).1) ↔
      pyUpper inp ∈ ["Y", "YE", "YES"] := by
  match filters, hf with
  | f :: fs, _ =>
    by_cases h : pyUpper inp ∈ yes_answers
    · have h2 : pyUpper inp ∈ ["Y", "YE", "YES"] := h
      simp only [h2, iff_true]
      cases cc <;>
        · refine ⟨"DELETE FROM [" ++ db ++ "].[" ++ sch ++ "].[" ++ tn ++
            "] WHERE " ++ build_where_clause (f :: fs), ?_⟩
          simp [delete_rows, make_connection, close_connection, if_pos h]
    · have h2 : pyUpper inp ∉ ["Y", "YE", "YES"] := h
      simp only [h2, iff_false]
      cases cc <;>
        · intro hex
          obtain ⟨q, hq⟩ := hex
          simp [delete_rows, make_connection, close_connection, if_neg h] at hq

/-- Witness for C10: input `y` upper-cases to `Y` and triggers the delete. -/
theorem delete_confirmation_exact_inputs_witness :
    (("A", "1") :: [] ≠ ([] : List (String × String))) ∧
    ((∃ q, Event.execute q ∈
        (delete_rows (Except.ok ()) (Except.ok ()) [] "y" ["s", "d"] "T" "dbo" false "drv"
          [("A", "1")]).1) ↔
      pyUpper "y" ∈ ["Y", "YE", "YES"]) :=
  ⟨by decide,
   delete_confirmation_exact_inputs "s" "d" "T" "dbo" "drv" false [] "y"
     [("A", "1")] (by decide)⟩

end SSDB

namespace SSDB

/-- Claim C1: for every non-empty filter mapping, `delete_rows` builds one
`WHERE` clause in which each filter contributes the predicate
`[column] = \x27value\x27` (the value single-quote-wrapped, not parameterized),
joined with ` AND ` only; the preview `SELECT` issued uses exactly this clause,
and any `DELETE` executed uses the identical clause. -/
theorem delete_where_clause_shared (server db tn sch drv : String) (cc : Bool)
    (table : List Row) (inp : String) (filters : List (String × String))
    (hf : filters ≠ []) :
    (Event.readSql ("SELECT * FROM [" ++ db ++ "].[" ++ sch ++ "].[" ++ tn ++
        "] WHERE " ++ andJoin (filters.map (fun f =>
          "[" ++ f.1 ++ "] = \x27" ++ f.2 ++ "\x27"))) ∈
      (delete_rows (Except.ok ()) (Except.ok ()) table inp [server, db] tn sch cc drv filters).1) ∧
    (∀ q, Event.execute q ∈
        (delete_rows (Except.ok ()) (Except.ok ()) table inp [server, db] tn sch cc drv filters).1 →
      q = "DELETE FROM [" ++ db ++ "].[" ++ sch ++ "].[" ++ tn ++
        "] WHERE " ++ andJoin (filters.map (fun f =>
          "[" ++ f.1 ++ "] = \x27" ++ f.2 ++ "\x27"))) ∧
    (pyUpper inp ∈ yes_answers →
      Event.execute ("DELETE FROM [" ++ db ++ "].[" ++ sch ++ "].[" ++ tn ++
        "] WHERE " ++ andJoin (filters.map (fun f =>
          "[" ++ f.1 ++ "] = \x27" ++ f.2 ++ "\x27"))) ∈
      (delete_rows (Except.ok ()) (Except.ok ()) table inp [server, db] tn sch cc drv filters).1) := by
  have hw : build_where_clause filters = andJoin (filters.map (fun f =>
      "[" ++ f.1 ++ "] = \x27" ++ f.2 ++ "\x27")) :=
    build_where_clause_eq filters
  match filters, hf with
  | f :: fs, _ =>
    by_cases h : pyUpper inp ∈ yes_answers
    · refine ⟨?_, ?_, ?_⟩
      · cases cc <;>
          simp [delete_rows, make_connection, close_connection, if_pos h, hw]
      · intro q hq
        cases cc <;>
          · simp [delete_rows, make_connection, close_connection, if_pos h,
              hw] at hq
            exact hq
      · intro _
        cases cc <;>
          simp [delete_rows, make_connection, close_connection, if_pos h, hw]
    · refine ⟨?_, ?_, ?_⟩
      · cases cc <;>
          simp [delete_rows, make_connection, close_connection, if_neg h, hw]
      · intro q hq
        cases cc <;>
          simp [delete_rows, make_connection, close_connection, if_neg h,
            hw] at hq
      · intro h2
        exact absurd h2 h

/-- Witness for C1 at concrete inputs (two filters, confirming input). -/
theorem delete_where_clause_shared_witness :
    (("A", "1") :: [("B", "2")] ≠ ([] : List (String × String))) ∧
    (Event.readSql ("SELECT * FROM [" ++ "d" ++ "].[" ++ "dbo" ++ "].[" ++
        "T" ++ "] WHERE " ++ andJoin ([("A", "1"), ("B", "2")].map (fun f =>
          "[" ++ f.1 ++ "] = \x27" ++ f.2 ++ "\x27"))) ∈
      (delete_rows (Except.ok ()) (Except.ok ()) [] "yes" ["s", "d"] "T" "dbo" false "drv"
        [("A", "1"), ("B", "2")]).1) :=
  ⟨by decide,
   (delete_where_clause_shared "s" "d" "T" "dbo" "drv" false [] "yes"
     [("A", "1"), ("B", "2")] (by decide)).1⟩

end SSDB

namespace SSDB

/-- Claim C2: in `delete_rows`, declining the confirmation leaves the remote
table unchanged, executes no `DELETE`, succeeds (no error) and reports via the
console message `No rows deleted.`; accepting removes exactly the rows matched
by the previewed `SELECT` filter and no others (the remaining table is the
non-matching rows, the previewed table is the matching rows, and a row ends up
in the result precisely when it was in the table and did not match). -/
theorem delete_confirmation_semantics (server db tn sch drv : String)
    (cc : Bool) (table : List Row) (inp : String)
    (filters : List (String × String)) (hf : filters ≠ []) :
    (pyUpper inp ∉ yes_answers →
      (delete_rows (Except.ok ()) (Except.ok ()) table inp [server, db] tn sch cc drv filters).2.1 = table ∧
      (delete_rows (Except.ok ()) (Except.ok ()) table inp [server, db] tn sch cc drv filters).2.2 =
        Except.ok () ∧
      (∀ q, Event.execute q ∉
        (delete_rows (Except.ok ()) (Except.ok ()) table inp [server, db] tn sch cc drv filters).1) ∧
      Event.printMsg ("No rows deleted.") ∈
        (delete_rows (Except.ok ()) (Except.ok ()) table inp [server, db] tn sch cc drv filters).1) ∧
    (pyUpper inp ∈ yes_answers →
      (delete_rows (Except.ok ()) (Except.ok ()) table inp [server, db] tn sch cc drv filters).2.1 =
        table.filter (fun r => !(rowMatches filters r)) ∧
      (delete_rows (Except.ok ()) (Except.ok ()) table inp [server, db] tn sch cc drv filters).2.2 =
        Except.ok () ∧
      Event.printTable (table.filter (fun r => rowMatches filters r)) ∈
        (delete_rows (Except.ok ()) (Except.ok ()) table inp [server, db] tn sch cc drv filters).1 ∧
      (∀ r, r ∈ (delete_rows (Except.ok ()) (Except.ok ()) table inp [server, db] tn sch cc drv
          filters).2.1 ↔
        (r ∈ table ∧ rowMatches filters r = false))) := by
  match filters, hf with
  | f :: fs, _ =>
    constructor
    · intro h
      cases cc <;>
        · refine ⟨?_, ?_, ?_, ?_⟩ <;>
            simp [delete_rows, make_connection, close_connection, if_neg h]
    · intro h
      cases cc <;>
        · refine ⟨?_, ?_, ?_, ?_⟩
          · simp [delete_rows, make_connection, close_connection, if_pos h]
          · simp [delete_rows, make_connection, close_connection, if_pos h]
          · simp [delete_rows, make_connection, close_connection, if_pos h]
          · intro r
            simp [delete_rows, make_connection, close_connection, if_pos h,
              List.mem_filter]

/-- Witness for C2: declining with input `n`, accepting with input `y`, on a
two-row table with one matching row. -/
theorem delete_confirmation_semantics_witness :
    (("A", "1") :: [] ≠ ([] : List (String × String))) ∧
    (pyUpper "n" ∉ yes_answers ∧
      (delete_rows (Except.ok ()) (Except.ok ()) [[("A", "1")], [("A", "2")]] "n" ["s", "d"] "T" "dbo"
        false "drv" [("A", "1")]).2.1 = [[("A", "1")], [("A", "2")]]) ∧
    (pyUpper "y" ∈ yes_answers ∧
      (delete_rows (Except.ok ()) (Except.ok ()) [[("A", "1")], [("A", "2")]] "y" ["s", "d"] "T" "dbo"
        false "drv" [("A", "1")]).2.1 =
        List.filter (fun r => !(rowMatches [("A", "1")] r))
          [[("A", "1")], [("A", "2")]]) :=
  ⟨by decide,
   ⟨by decide,
    ((delete_confirmation_semantics "s" "d" "T" "dbo" "drv" false
      [[("A", "1")], [("A", "2")]] "n" [("A", "1")] (by decide)).1
      (by decide)).1⟩,
   ⟨by decide,
    ((delete_confirmation_semantics "s" "d" "T" "dbo" "drv" false
      [[("A", "1")], [("A", "2")]] "y" [("A", "1")] (by decide)).2
      (by decide)).1⟩⟩

end SSDB

namespace SSDB

/-- Trace of `populate_table` on the normal path without a custom connection:
open the pair, bulk write, close the pair, optionally print. -/
theorem populate_table_trace_ok (server db tn sch drv : String) (sp te : Bool)
    (existing out : List (List String)) (df : DataFrame) (ie : String)
    (hts : to_sql_model te existing df ie = Except.ok out) :
    (populate_table te existing [server, db] tn df ie sch false drv sp).1 =
      [Event.openConn (conn_text server db),
       Event.openEngine (engine_text server db drv),
       Event.toSql tn sch ie false 1000 df.columns,
       Event.closeConn, Event.disposeEngine] ++
      (if sp then [Event.printMsg (toString df.rows.length ++
        " rows added to " ++ tn ++ " in " ++ db ++ ".")] else []) := by
  cases sp <;> simp [populate_table, make_connection, hts, close_connection]

/-- Claim C5: every operation called with `custom_connection = False` on the
normal path opens the pyodbc connection built from the (server, database)
pair and then the sqlalchemy engine built from the pair and the driver as its
first two effects, and its whole trace respects the single-pair open/close
discipline: at most one connection/engine pair is live at any point, and the
trace ends with nothing open, so no handle outlives the call and each call
opens fresh handles. -/
theorem connection_pair_scoped (server db tn sch drv query : String)
    (sp : Bool) (dt df : DataFrame) (te teA : Bool)
    (existing out : List (List String)) (ie : String)
    (hts : to_sql_model te existing df ie = Except.ok out)
    (table : List Row) (inp : String) (filters : List (String × String))
    (hf : filters ≠ []) (kwargs : List (String × String)) :
    scopedOpen server db drv
      (import_table (Except.ok dt) [server, db] tn sch false drv sp).1 ∧
    scopedOpen server db drv
      (create_table (Except.ok ()) teA existing [server, db] tn df sch false
        drv sp kwargs).1 ∧
    scopedOpen server db drv
      (populate_table te existing [server, db] tn df ie sch false drv sp).1 ∧
    scopedOpen server db drv (drop_table (Except.ok ()) [server, db] tn sch false drv sp).1 ∧
    scopedOpen server db drv (trunc_table (Except.ok ()) [server, db] tn sch false drv sp).1 ∧
    scopedOpen server db drv
      (delete_rows (Except.ok ()) (Except.ok ()) table inp [server, db] tn sch false drv filters).1 ∧
    scopedOpen server db drv
      (custom_query (Except.ok dt) [server, db] query false drv).1 := by
  refine ⟨?_, ?_, ?_, ?_, ?_, ?_, ?_⟩
  · cases sp <;> exact ⟨rfl, _, rfl⟩
  · cases sp <;> cases teA <;> exact ⟨rfl, _, rfl⟩
  · rw [populate_table_trace_ok server db tn sch drv sp te existing out df ie
      hts]
    cases sp <;> exact ⟨rfl, _, rfl⟩
  · cases sp <;> exact ⟨rfl, _, rfl⟩
  · cases sp <;> exact ⟨rfl, _, rfl⟩
  · match filters, hf with
    | f :: fs, _ =>
      by_cases h : pyUpper inp ∈ yes_answers
      · simp [delete_rows, make_connection, close_connection, if_pos h]
        exact ⟨rfl, _, rfl⟩
      · simp [delete_rows, make_connection, close_connection, if_neg h]
        exact ⟨rfl, _, rfl⟩
  · exact ⟨rfl, _, rfl⟩

end SSDB

namespace SSDB

/-- Witness for C5 at concrete inputs. -/
theorem connection_pair_scoped_witness :
    (to_sql_model false [] ⟨["A"], [["1"]]⟩ "append" =
      Except.ok [["1"]]) ∧
    (("A", "1") :: [] ≠ ([] : List (String × String))) ∧
    scopedOpen "s" "d" "v"
      (import_table (Except.ok ⟨["A"], [["1"]]⟩) ["s", "d"] "T" "dbo" false
        "v" false).1 ∧
    scopedOpen "s" "d" "v"
      (populate_table false [] ["s", "d"] "T" ⟨["A"], [["1"]]⟩ "append" "dbo"
        false "v" false).1 ∧
    scopedOpen "s" "d" "v"
      (delete_rows (Except.ok ()) (Except.ok ()) [] "n" ["s", "d"] "T" "dbo" false "v" [("A", "1")]).1 :=
  ⟨rfl, by decide,
   (connection_pair_scoped "s" "d" "T" "dbo" "v" "Q" false ⟨["A"], [["1"]]⟩
      ⟨["A"], [["1"]]⟩ false false [] [["1"]] "append" rfl [] "n"
      [("A", "1")] (by decide) []).1,
   (connection_pair_scoped "s" "d" "T" "dbo" "v" "Q" false ⟨["A"], [["1"]]⟩
      ⟨["A"], [["1"]]⟩ false false [] [["1"]] "append" rfl [] "n"
      [("A", "1")] (by decide) []).2.2.1,
   (connection_pair_scoped "s" "d" "T" "dbo" "v" "Q" false ⟨["A"], [["1"]]⟩
      ⟨["A"], [["1"]]⟩ false false [] [["1"]] "append" rfl [] "n"
      [("A", "1")] (by decide) []).2.2.2.2.2.1⟩

end SSDB
